import Mathlib

/-!
Formal model of the conversation-context logic of bot.py (MemoSfeduBot).

The model covers the message data type, the per-user context store
(the user_context dictionary), the /start and /clear handlers, the
context trim performed in handle_message, and a full handle_message
turn against an abstract completion backend. Machine-level transport
(telegram updates, logging, chat actions) is abstracted away; the
backend is a parameter mapping the prompt to a result, so the model
quantifies over every possible backend behaviour.
-/

namespace MemoBot

/-- One chat message: a role tag (system, user or assistant) and text
content, mirroring the role/content dictionaries built in bot.py. -/
structure Message where
  role : String
  content : String
deriving DecidableEq

/-- The system directive text, copied verbatim from SYSTEM_PROMPT in
bot.py lines 25-26 (the Python triple-quoted string contains a real
newline and a trailing space before it). -/
def SYSTEM_PROMPT : String :=
  "You are a helpful and friendly AI assistant. You have memory of our conversation, \nso you can reference previous messages and provide contextual responses. Always be polite and clear."

/-- The context bound, bot.py line 29. -/
def MAX_CONTEXT_LENGTH : Nat := 20

/-- The message stored at index 0 of every freshly created context. -/
def systemMessage : Message :=
  { role := "system", content := SYSTEM_PROMPT }

/-- A user message as appended at bot.py line 109. -/
def userMessage (text : String) : Message :=
  { role := "user", content := text }

/-- An assistant message as appended at bot.py line 133. -/
def assistantMessage (text : String) : Message :=
  { role := "assistant", content := text }

/-- The user_context dictionary of bot.py line 23: a partial map from
the telegram user id to that user's ordered message list. -/
def ContextStore : Type := Nat → Option (List Message)

/-- The store with no entries (process start). -/
def emptyStore : ContextStore := fun _ => none

/-- Dictionary assignment user_context[uid] = ctx. -/
def storeSet (store : ContextStore) (uid : Nat) (ctx : List Message) : ContextStore :=
  fun u => if u = uid then some ctx else store u

/-- Python slice ctx[-(k):] for k > 0: the last k elements (all of
them when the list is shorter than k). -/
def lastN (k : Nat) (l : List Message) : List Message :=
  l.drop (l.length - k)

/-- The trim of bot.py lines 112-113: when the context is longer than
MAX_CONTEXT_LENGTH, keep element 0 plus the last MAX_CONTEXT_LENGTH - 1
elements. -/
def trimContext (ctx : List Message) : List Message :=
  if MAX_CONTEXT_LENGTH < ctx.length then
    ctx.take 1 ++ lastN (MAX_CONTEXT_LENGTH - 1) ctx
  else ctx

/-- Context lookup with lazy creation, bot.py lines 104-106: an absent
user gets the single-element system context. -/
def getOrCreate (store : ContextStore) (uid : Nat) : List Message :=
  (store uid).getD [systemMessage]

/-- The message list actually sent to the completion backend in one
turn (bot.py line 125): the stored context after the user-message
append of line 109 and the trim of lines 112-113. -/
def backendPrompt (store : ContextStore) (uid : Nat) (text : String) : List Message :=
  trimContext (getOrCreate store uid ++ [userMessage text])

/-- One choice of a chat-completion response; bot.py reads
response.choices[0].message.content. -/
structure Choice where
  message : Message
deriving DecidableEq

/-- A chat-completion response body: its list of choices. -/
structure ChatResponse where
  choices : List Choice
deriving DecidableEq

/-- Outcome of one backend call: a response, or a raised exception
carrying its message text. -/
inductive BackendResult where
  | ok (response : ChatResponse)
  | error (message : String)
deriving DecidableEq

/-- True when the call raised, or when the response has no choices so
that choices[0] raises IndexError inside the same try block. -/
def BackendResult.fails : BackendResult → Bool
  | .error _ => true
  | .ok r => r.choices.isEmpty

/-- What the handler sends back to the user: the assistant reply text,
or the error text of bot.py lines 141-148. -/
inductive TurnOutcome where
  | reply (text : String)
  | error (text : String)
deriving DecidableEq

/-- True exactly on a successful reply. -/
def TurnOutcome.isReply : TurnOutcome → Bool
  | .reply _ => true
  | .error _ => false

/-- Python slice s[:100] on the exception text: the first n characters. -/
def pyTruncate (n : Nat) (s : String) : String :=
  String.mk (s.data.take n)

/-- The fixed part of the error reply of bot.py lines 142-148, up to
and including the final "Детали ошибки: " label. -/
def ERROR_REPLY_PREFIX : String :=
  "❌ Произошла ошибка при обращении к LM Studio.\n\nПожалуйста, убедитесь что:\n1️⃣ LM Studio запущен\n2️⃣ Модель загружена\n3️⃣ Сервер активен (кнопка Start Server)\n4️⃣ Сервер доступен по адресу http://localhost:1234\n\nДетали ошибки: "

/-- The full error reply: fixed template plus the exception text
truncated to 100 characters (bot.py line 148). -/
def errorReply (e : String) : String :=
  ERROR_REPLY_PREFIX ++ pyTruncate 100 e

/-- The CPython message of the IndexError raised by choices[0] on an
empty list; it is caught by the same except block. -/
def INDEX_ERROR_MESSAGE : String := "list index out of range"

/-- One full turn of handle_message (bot.py lines 91-149): create the
context if absent, append the user message, trim, call the backend on
the current context; on success append the assistant message and
return the reply, on any exception leave the context as it was after
the trim and return the error text. -/
def handle_message (store : ContextStore) (uid : Nat) (text : String)
    (backend : List Message → BackendResult) : ContextStore × TurnOutcome :=
  let ctx1 := backendPrompt store uid text
  match backend ctx1 with
  | .error e => (storeSet store uid ctx1, .error (errorReply e))
  | .ok r =>
    match r.choices with
    | [] => (storeSet store uid ctx1, .error (errorReply INDEX_ERROR_MESSAGE))
    | c :: _ =>
        (storeSet store uid (ctx1 ++ [assistantMessage c.message.content]),
         .reply c.message.content)

/-- The /clear handler (bot.py lines 70-89): report
len(user_context.get(uid, [])) - 1 as the removed count and reset the
entry to the single system message. The count is an integer exactly as
in the source, where the subtraction can go below zero. -/
def clear (store : ContextStore) (uid : Nat) : ContextStore × Int :=
  (storeSet store uid [systemMessage], (((store uid).getD []).length : Int) - 1)

/-- The /start handler (bot.py lines 31-35): reset the entry to the
single system message. -/
def start (store : ContextStore) (uid : Nat) : ContextStore :=
  storeSet store uid [systemMessage]

/-- A sequence of turns for one user: handle_message folded over the
incoming texts against a fixed backend. -/
def runTurns (store : ContextStore) (uid : Nat)
    (backend : List Message → BackendResult) : List String → ContextStore
  | [] => store
  | t :: ts => runTurns (handle_message store uid t backend).1 uid backend ts

/-- One append performed by the turn handler on a context: a user
append is followed by the trim (bot.py lines 109-114), an assistant
append is not (bot.py line 133). -/
inductive AppendEvent where
  | user (text : String)
  | assistant (text : String)
deriving DecidableEq

/-- Apply one handler append to a context. -/
def applyAppend (ctx : List Message) : AppendEvent → List Message
  | .user t => trimContext (ctx ++ [userMessage t])
  | .assistant t => ctx ++ [assistantMessage t]

/-- Apply a sequence of handler appends. -/
def runAppends (ctx : List Message) : List AppendEvent → List Message
  | [] => ctx
  | e :: es => runAppends (applyAppend ctx e) es

/-- A backend that always succeeds with the given reply text. -/
def okBackend (reply : String) : List Message → BackendResult :=
  fun _ => .ok { choices := [{ message := assistantMessage reply }] }

/-- A backend whose call always raises. -/
def downBackend : List Message → BackendResult :=
  fun _ => .error "down"

-- Basic lemmas about the trim.

theorem trimContext_length (l : List Message) :
    (trimContext l).length = min l.length MAX_CONTEXT_LENGTH := by
  simp only [trimContext, lastN, MAX_CONTEXT_LENGTH]
  split <;> simp [List.length_take, List.length_drop] <;> omega

theorem trimContext_head (l : List Message) (m : Message)
    (h : l.head? = some m) : (trimContext l).head? = some m := by
  cases l with
  | nil => simp at h
  | cons a t =>
      simp only [List.head?_cons, Option.some.injEq] at h
      subst h
      simp only [trimContext, lastN]
      split
      · simp
      · rfl

theorem trimContext_sublist (l : List Message) : (trimContext l).Sublist l := by
  simp only [trimContext, lastN, MAX_CONTEXT_LENGTH]
  split
  · rename_i h
    conv_rhs => rw [← List.take_append_drop 1 l]
    refine List.Sublist.append (List.Sublist.refl _) ?_
    have h2 : l.length - (20 - 1) = 1 + (l.length - 20) := by omega
    rw [h2, ← List.drop_drop]
    exact List.drop_sublist _ _
  · exact List.Sublist.refl l

theorem head?_append_singleton (l : List Message) (m x : Message)
    (h : l.head? = some m) : (l ++ [x]).head? = some m := by
  cases l with
  | nil => simp at h
  | cons a t => simpa using h

theorem backendPrompt_length (store : ContextStore) (uid : Nat) (text : String) :
    (backendPrompt store uid text).length =
      min ((getOrCreate store uid).length + 1) MAX_CONTEXT_LENGTH := by
  rw [backendPrompt, trimContext_length]
  simp

theorem backendPrompt_length_le (store : ContextStore) (uid : Nat) (text : String) :
    (backendPrompt store uid text).length ≤ MAX_CONTEXT_LENGTH := by
  rw [backendPrompt_length]
  exact min_le_right _ _

theorem backendPrompt_head (store : ContextStore) (uid : Nat) (text : String)
    (h : (getOrCreate store uid).head? = some systemMessage) :
    (backendPrompt store uid text).head? = some systemMessage :=
  trimContext_head _ _ (head?_append_singleton _ _ _ h)

-- Structural lemmas about one turn.

theorem handle_message_cases (store : ContextStore) (uid : Nat) (text : String)
    (backend : List Message → BackendResult) :
    handle_message store uid text backend =
      match backend (backendPrompt store uid text) with
      | .error e =>
          (storeSet store uid (backendPrompt store uid text), .error (errorReply e))
      | .ok r =>
        match r.choices with
        | [] =>
            (storeSet store uid (backendPrompt store uid text),
             .error (errorReply INDEX_ERROR_MESSAGE))
        | c :: _ =>
            (storeSet store uid
               (backendPrompt store uid text ++ [assistantMessage c.message.content]),
             .reply c.message.content) := rfl

theorem handle_message_store_eq (store : ContextStore) (uid : Nat) (text : String)
    (backend : List Message → BackendResult) :
    ∃ ctx, (handle_message store uid text backend).1 = storeSet store uid ctx := by
  rw [handle_message_cases]
  cases backend (backendPrompt store uid text) with
  | error e => exact ⟨_, rfl⟩
  | ok r =>
      obtain ⟨choices⟩ := r
      cases choices with
      | nil => exact ⟨_, rfl⟩
      | cons c cs => exact ⟨_, rfl⟩

theorem handle_message_context (store : ContextStore) (uid : Nat) (text : String)
    (backend : List Message → BackendResult) :
    (handle_message store uid text backend).1 uid = some (backendPrompt store uid text) ∨
    ∃ c, (handle_message store uid text backend).1 uid =
      some (backendPrompt store uid text ++ [assistantMessage c]) := by
  rw [handle_message_cases]
  cases backend (backendPrompt store uid text) with
  | error e => left; simp [storeSet]
  | ok r =>
      obtain ⟨choices⟩ := r
      cases choices with
      | nil => left; simp [storeSet]
      | cons c cs => right; exact ⟨c.message.content, by simp [storeSet]⟩

theorem turn_head_length (store : ContextStore) (uid : Nat) (text : String)
    (backend : List Message → BackendResult)
    (h1 : (getOrCreate store uid).head? = some systemMessage) :
    (getOrCreate ((handle_message store uid text backend).1) uid).head? = some systemMessage ∧
    (getOrCreate ((handle_message store uid text backend).1) uid).length ≤
      MAX_CONTEXT_LENGTH + 1 := by
  have hp := backendPrompt_head store uid text h1
  have hl := backendPrompt_length_le store uid text
  rcases handle_message_context store uid text backend with h | ⟨c, h⟩
  · rw [getOrCreate, h, Option.getD_some]
    exact ⟨hp, le_trans hl (Nat.le_succ _)⟩
  · rw [getOrCreate, h, Option.getD_some]
    constructor
    · exact head?_append_singleton _ _ _ hp
    · rw [List.length_append]
      simpa using hl

theorem runTurns_head_length (uid : Nat) (backend : List Message → BackendResult)
    (msgs : List String) :
    ∀ store : ContextStore,
      (getOrCreate store uid).head? = some systemMessage →
      (getOrCreate store uid).length ≤ MAX_CONTEXT_LENGTH + 1 →
      (getOrCreate (runTurns store uid backend msgs) uid).head? = some systemMessage ∧
      (getOrCreate (runTurns store uid backend msgs) uid).length ≤
        MAX_CONTEXT_LENGTH + 1 := by
  induction msgs with
  | nil => intro store h1 h2; exact ⟨h1, h2⟩
  | cons t ts ih =>
      intro store h1 h2
      have hstep := turn_head_length store uid t backend h1
      exact ih _ hstep.1 hstep.2

theorem errorReply_length (e : String) :
    (errorReply e).length ≤ ERROR_REPLY_PREFIX.length + 100 := by
  rw [errorReply, String.length_append]
  have h2 : (pyTruncate 100 e).length ≤ 100 := by
    show (e.data.take 100).length ≤ 100
    rw [List.length_take]
    exact min_le_left _ _
  omega

-- Concrete fixtures used by witnesses and counterexamples.

/-- Ten user texts, driving ten successful turns. -/
def tenMessages : List String :=
  ["m1", "m2", "m3", "m4", "m5", "m6", "m7", "m8", "m9", "m10"]

/-- A stored context already at the bound: the system message plus 19
user messages. -/
def ctx20 : List Message := systemMessage :: List.replicate 19 (userMessage "m")

/-- A stored context one over the bound: the system message plus 20
user messages. -/
def ctx21 : List Message := systemMessage :: List.replicate 20 (userMessage "m")

/-- A store holding ctx20 for user 1. -/
def fullStore : ContextStore := storeSet emptyStore 1 ctx20

/-- Twenty-five handler appends: thirteen user texts interleaved with
twelve assistant replies, in arrival order. -/
def events25 : List AppendEvent :=
  [.user "u1", .assistant "a1", .user "u2", .assistant "a2",
   .user "u3", .assistant "a3", .user "u4", .assistant "a4",
   .user "u5", .assistant "a5", .user "u6", .assistant "a6",
   .user "u7", .assistant "a7", .user "u8", .assistant "a8",
   .user "u9", .assistant "a9", .user "u10", .assistant "a10",
   .user "u11", .assistant "a11", .user "u12", .assistant "a12",
   .user "u13"]

/-- The system message plus the most recent 19 of the 25 appended
messages, in their original relative order. -/
def expected25 : List Message :=
  [systemMessage,
   userMessage "u4", assistantMessage "a4",
   userMessage "u5", assistantMessage "a5",
   userMessage "u6", assistantMessage "a6",
   userMessage "u7", assistantMessage "a7",
   userMessage "u8", assistantMessage "a8",
   userMessage "u9", assistantMessage "a9",
   userMessage "u10", assistantMessage "a10",
   userMessage "u11", assistantMessage "a11",
   userMessage "u12", assistantMessage "a12",
   userMessage "u13"]

-- Claim theorems.

/-- C1 counterexample: the claim that after each append the context
length stays at most MAX_CONTEXT_LENGTH is false. Starting from a
fresh user, ten successful turns (ten user appends and ten
assistant-reply appends through handle_message) leave the stored
context at length 21 > MAX_CONTEXT_LENGTH, because no trim runs after
the assistant-reply append. -/
theorem C1_counterexample :
    MAX_CONTEXT_LENGTH <
      (getOrCreate (runTurns emptyStore 1 (okBackend "ok") tenMessages) 1).length := by
  decide

/-- C1 (amended): for every user and every stored context whose head
is the system message and whose length is at most
MAX_CONTEXT_LENGTH + 1, each turn keeps these bounds: after the
user-message append and trim the length is at most MAX_CONTEXT_LENGTH
and index 0 is the system message; after the whole turn (including a
possible assistant-reply append, which is not followed by a trim) the
length is at most MAX_CONTEXT_LENGTH + 1 and index 0 is still the
system message; the same bounds hold after any sequence of turns. -/
theorem C1_amended_bound_invariant (store : ContextStore) (uid : Nat)
    (backend : List Message → BackendResult)
    (h1 : (getOrCreate store uid).head? = some systemMessage)
    (h2 : (getOrCreate store uid).length ≤ MAX_CONTEXT_LENGTH + 1) :
    (∀ text : String,
        (backendPrompt store uid text).length ≤ MAX_CONTEXT_LENGTH ∧
        (backendPrompt store uid text).head? = some systemMessage ∧
        (getOrCreate ((handle_message store uid text backend).1) uid).head? =
          some systemMessage ∧
        (getOrCreate ((handle_message store uid text backend).1) uid).length ≤
          MAX_CONTEXT_LENGTH + 1) ∧
    (∀ msgs : List String,
        (getOrCreate (runTurns store uid backend msgs) uid).head? = some systemMessage ∧
        (getOrCreate (runTurns store uid backend msgs) uid).length ≤
          MAX_CONTEXT_LENGTH + 1) := by
  constructor
  · intro text
    have hstep := turn_head_length store uid text backend h1
    exact ⟨backendPrompt_length_le store uid text, backendPrompt_head store uid text h1,
      hstep.1, hstep.2⟩
  · intro msgs
    exact runTurns_head_length uid backend msgs store h1 h2

/-- C1 witness: the amended invariant instantiated at a fresh store,
user 1, a succeeding backend, the text hi and a two-turn sequence. -/
theorem C1_amended_witness :
    ((backendPrompt emptyStore 1 "hi").length ≤ MAX_CONTEXT_LENGTH ∧
     (backendPrompt emptyStore 1 "hi").head? = some systemMessage ∧
     (getOrCreate ((handle_message emptyStore 1 "hi" (okBackend "r")).1) 1).head? =
       some systemMessage ∧
     (getOrCreate ((handle_message emptyStore 1 "hi" (okBackend "r")).1) 1).length ≤
       MAX_CONTEXT_LENGTH + 1) ∧
    ((getOrCreate (runTurns emptyStore 1 (okBackend "r") ["a", "b"]) 1).head? =
       some systemMessage ∧
     (getOrCreate (runTurns emptyStore 1 (okBackend "r") ["a", "b"]) 1).length ≤
       MAX_CONTEXT_LENGTH + 1) :=
  ⟨(C1_amended_bound_invariant emptyStore 1 (okBackend "r") rfl (by decide)).1 "hi",
   (C1_amended_bound_invariant emptyStore 1 (okBackend "r") rfl (by decide)).2 ["a", "b"]⟩

set_option maxRecDepth 8192 in
/-- C2: whenever an append pushes the context over MAX_CONTEXT_LENGTH,
the trim keeps exactly element 0 plus the most recent
MAX_CONTEXT_LENGTH - 1 elements, yielding length MAX_CONTEXT_LENGTH
and preserving the relative order of the retained messages (the
result is a sublist of the original, so eviction is strict FIFO over
the oldest non-system messages); in particular, after the 25
user/assistant handler appends of events25, the context is the system
message plus exactly the most recent 19 messages in original order. -/
theorem C2_fifo_eviction :
    (∀ ctx : List Message, MAX_CONTEXT_LENGTH < ctx.length →
        trimContext ctx =
          ctx.take 1 ++ ctx.drop (ctx.length - (MAX_CONTEXT_LENGTH - 1)) ∧
        (trimContext ctx).length = MAX_CONTEXT_LENGTH ∧
        (trimContext ctx).Sublist ctx) ∧
    runAppends [systemMessage] events25 = expected25 := by
  constructor
  · intro ctx h
    refine ⟨?_, ?_, trimContext_sublist ctx⟩
    · simp [trimContext, lastN, h]
    · rw [trimContext_length]
      simp only [MAX_CONTEXT_LENGTH] at h ⊢
      omega
  · decide

/-- C2 witness: the trim equations instantiated at a concrete
21-element context. -/
theorem C2_fifo_eviction_witness :
    trimContext ctx21 =
      ctx21.take 1 ++ ctx21.drop (ctx21.length - (MAX_CONTEXT_LENGTH - 1)) ∧
    (trimContext ctx21).length = MAX_CONTEXT_LENGTH ∧
    (trimContext ctx21).Sublist ctx21 :=
  C2_fifo_eviction.1 ctx21 (by decide)

/-- C3 counterexample: the parenthetical length claim fails. With a
stored context already at the bound (ctx20, length 20), a failed turn
leaves length min(20 + 1, 20) = 20, not the pre-call length + 1 = 21,
because the trim ran after the user-message append. -/
theorem C3_counterexample :
    (getOrCreate ((handle_message fullStore 1 "x" downBackend).1) 1).length ≠
      (getOrCreate fullStore 1).length + 1 := by
  decide

/-- C3 (amended): if the completion-backend call fails (raised call,
or a response with no choices), no assistant message is appended: the
stored context equals the context right after the user-message append
and trim, its length is min(pre-call length + 1, MAX_CONTEXT_LENGTH)
(equal to pre-call length + 1 exactly when no trim fires), and the
outcome is an error, not a reply. -/
theorem C3_amended_failure (store : ContextStore) (uid : Nat) (text : String)
    (backend : List Message → BackendResult)
    (hfail : (backend (backendPrompt store uid text)).fails = true) :
    (handle_message store uid text backend).1 uid =
      some (backendPrompt store uid text) ∧
    (getOrCreate ((handle_message store uid text backend).1) uid).length =
      min ((getOrCreate store uid).length + 1) MAX_CONTEXT_LENGTH ∧
    ((handle_message store uid text backend).2).isReply = false := by
  rw [handle_message_cases]
  cases hb : backend (backendPrompt store uid text) with
  | error e =>
      refine ⟨by simp [storeSet], ?_, rfl⟩
      simp only [getOrCreate, storeSet, if_pos rfl, Option.getD_some]
      exact backendPrompt_length store uid text
  | ok r =>
      rw [hb] at hfail
      obtain ⟨choices⟩ := r
      cases choices with
      | cons c cs => simp [BackendResult.fails] at hfail
      | nil =>
          refine ⟨by simp [storeSet], ?_, rfl⟩
          simp only [getOrCreate, storeSet, if_pos rfl, Option.getD_some]
          exact backendPrompt_length store uid text

/-- C3 witness: the amended statement instantiated at a fresh store,
user 1, text hi and a backend whose call always raises. -/
theorem C3_amended_failure_witness :
    (handle_message emptyStore 1 "hi" downBackend).1 1 =
      some (backendPrompt emptyStore 1 "hi") ∧
    (getOrCreate ((handle_message emptyStore 1 "hi" downBackend).1) 1).length =
      min ((getOrCreate emptyStore 1).length + 1) MAX_CONTEXT_LENGTH ∧
    ((handle_message emptyStore 1 "hi" downBackend).2).isReply = false :=
  C3_amended_failure emptyStore 1 "hi" downBackend rfl

/-- C4: for every store, user, text and backend behaviour, the handler
returns a structured outcome: either a reply, or an error whose text
is the fixed template plus the exception text truncated to 100
characters, hence of bounded length. The handler is a total function,
so no backend exception escapes it; the empty-choices IndexError is
caught by the same except block. -/
theorem C4_failures_converted (store : ContextStore) (uid : Nat) (text : String)
    (backend : List Message → BackendResult) :
    (∃ t, (handle_message store uid text backend).2 = TurnOutcome.reply t) ∨
    (∃ d, (handle_message store uid text backend).2 = TurnOutcome.error d ∧
          d.length ≤ ERROR_REPLY_PREFIX.length + 100) := by
  rw [handle_message_cases]
  cases backend (backendPrompt store uid text) with
  | error e => right; exact ⟨errorReply e, rfl, errorReply_length e⟩
  | ok r =>
      obtain ⟨choices⟩ := r
      cases choices with
      | nil => right; exact ⟨errorReply INDEX_ERROR_MESSAGE, rfl, errorReply_length _⟩
      | cons c cs => left; exact ⟨c.message.content, rfl⟩

/-- C5: evaluation of the clear handler at the failing input. For a
user with no stored context the source computes
len(user_context.get(uid, [])) - 1 = -1 and reports -1 messages
removed, where the claim (and the spec size and reset operations)
require 0. -/
theorem C5_missing_context_count :
    (clear emptyStore 1).2 = -1 ∧ (-1 : Int) ≠ 0 := by
  decide

/-- C6: clear followed immediately by clear yields the single-element
system-only context after each call, and the removed count reported by
the second clear is 0, for every prior store state. -/
theorem C6_reset_idempotent (store : ContextStore) (uid : Nat) :
    (clear store uid).1 uid = some [systemMessage] ∧
    (clear ((clear store uid).1) uid).1 uid = some [systemMessage] ∧
    (clear ((clear store uid).1) uid).2 = 0 := by
  refine ⟨?_, ?_, ?_⟩ <;> simp [clear, storeSet]

/-- C7: operations performed for user a (a full turn against any
backend, clear, start with its lazy creation) leave the store entry of
every other user b untouched. -/
theorem C7_per_user_isolation (store : ContextStore) (a b : Nat) (text : String)
    (backend : List Message → BackendResult) (h : b ≠ a) :
    (handle_message store a text backend).1 b = store b ∧
    (clear store a).1 b = store b ∧
    start store a b = store b := by
  obtain ⟨ctx, hc⟩ := handle_message_store_eq store a text backend
  rw [hc]
  refine ⟨?_, ?_, ?_⟩ <;> simp [storeSet, clear, start, h]

/-- C7 witness: isolation instantiated at users 1 and 2 on the empty
store. -/
theorem C7_isolation_witness :
    (handle_message emptyStore 1 "hi" downBackend).1 2 = emptyStore 2 ∧
    (clear emptyStore 1).1 2 = emptyStore 2 ∧
    start emptyStore 1 2 = emptyStore 2 :=
  C7_per_user_isolation emptyStore 1 2 "hi" downBackend (by decide)

/-- A backend that answers hi there, as in the end-to-end scenario. -/
def hiBackend : List Message → BackendResult :=
  fun _ => .ok { choices := [{ message := { role := "assistant", content := "hi there" } }] }

set_option maxRecDepth 8192 in
/-- C8: the end-to-end scenario. A fresh user 1 sends hello: the
prompt sent to the backend is the system message plus the user
message; after the successful turn the stored context is system, user
hello, assistant hi there and the handler returns hi there; a
subsequent clear reports 2 messages removed and resets the context to
the single system message. -/
theorem C8_end_to_end :
    backendPrompt emptyStore 1 "hello" = [systemMessage, userMessage "hello"] ∧
    (handle_message emptyStore 1 "hello" hiBackend).1 1 =
      some [systemMessage, userMessage "hello", assistantMessage "hi there"] ∧
    (handle_message emptyStore 1 "hello" hiBackend).2 = TurnOutcome.reply "hi there" ∧
    (clear ((handle_message emptyStore 1 "hello" hiBackend).1) 1).2 = 2 ∧
    (clear ((handle_message emptyStore 1 "hello" hiBackend).1) 1).1 1 =
      some [systemMessage] := by
  decide

/-- C10: for every stored context whose head is the system message
(including contexts longer than the bound), the prompt sent to the
backend in a turn has length at most MAX_CONTEXT_LENGTH and starts
with the system-directive message, because the trim runs between the
user-message append and the backend call. -/
theorem C10_prompt_bounded (store : ContextStore) (uid : Nat) (text : String)
    (h : (getOrCreate store uid).head? = some systemMessage) :
    (backendPrompt store uid text).length ≤ MAX_CONTEXT_LENGTH ∧
    (backendPrompt store uid text).head? = some systemMessage :=
  ⟨backendPrompt_length_le store uid text, backendPrompt_head store uid text h⟩

/-- A store whose stored context for user 1 already exceeds the bound
(21 messages). -/
def overStore : ContextStore := storeSet emptyStore 1 ctx21

/-- C10 witness: the prompt bound instantiated at a store whose
context for user 1 has 21 messages. -/
theorem C10_prompt_bounded_witness :
    (backendPrompt overStore 1 "x").length ≤ MAX_CONTEXT_LENGTH ∧
    (backendPrompt overStore 1 "x").head? = some systemMessage :=
  C10_prompt_bounded overStore 1 "x" rfl

end MemoBot
